import Mathlib

/-!
Verification of the NYC taxi data pipeline (download + bulk import).

Shallow embedding of the Python sources:
  * `src/download_data.py`   — `NYCTaxiDataDownloader` (Fetcher / Availability Planner)
  * `src/import_to_duckdb.py`— `DuckDBImporter` (transactional parquet import)
  * `src/import_to_postgres.py` — `clean_df`, `log_import`, `import_parquet_copy`, `main`
  * `src/services.py`        — `PipelineService.run_pipeline`

Modelling conventions:
  * A parquet trip row is abstracted to its claim-relevant parts: the two
    timestamps (which may be NULL in the raw file) and an opaque payload
    standing for all other columns.  Column renaming and timezone anchoring
    do not affect row presence and are abstracted away.
  * External faults (network failures, database errors) are injected as
    explicit outcome values / fault flags, since the Python code observes
    them only as raised exceptions.
  * The thread pool of `import_to_postgres.main` is modelled by sequential
    processing of the file list; the aggregation (count of successes, sum of
    rows) is commutative, so completion order does not change the result.
  * Python functions that may raise, or that return `None` on some paths,
    are modelled with `Option`.
-/

/-- One trip row as read from a parquet file.  `pickup` / `dropoff` are the
`tpep_pickup_datetime` / `tpep_dropoff_datetime` columns (`none` models a
NULL timestamp); `payload` stands for all remaining columns. -/
structure RawRow where
  pickup : Option Nat
  dropoff : Option Nat
  payload : Nat
deriving DecidableEq

/-! ## Downloader (`src/download_data.py`) -/

/-- Local filesystem contents: an association list from file name to byte
content. -/
abbrev FileStore := List (String × List Nat)

/-- Content of a named local file, if it exists. -/
def lookupFile (fs : FileStore) (n : String) : Option (List Nat) :=
  (fs.find? (fun p => p.1 == n)).map (fun p => p.2)

/-- Delete a named local file (`Path.unlink`; no-op when absent). -/
def removeFile (fs : FileStore) (n : String) : FileStore :=
  fs.filter (fun p => p.1 != n)

/-- Write a named local file (`open(path, "wb")` truncates then writes). -/
def setFile (fs : FileStore) (n : String) (c : List Nat) : FileStore :=
  removeFile fs n ++ [(n, c)]

/-- Downloader-visible world state: the local files plus an instrumentation
counter of how many network requests (`requests.get` calls) were issued. -/
structure DlState where
  files : FileStore
  requests : Nat
deriving DecidableEq

/-- Outcome of one `requests.get(..., stream=True)` attempt, as the Python
code can observe it. -/
inductive FetchOutcome where
  /-- HTTP 200; the whole body streams to disk. -/
  | success (content : List Nat)
  /-- `requests.get` or `raise_for_status` raises (connection error,
  timeout, non-2xx status) before the local file is opened. -/
  | httpError
  /-- An exception while streaming chunks into the open file, after
  `part` bytes were written (dropped connection or local I/O error). -/
  | midStreamFail (part : List Nat)
  /-- A 2xx status other than 200: `raise_for_status` passes, the
  `status_code == 200` branch is skipped, nothing is written and the
  function falls through returning Python `None`. -/
  | odd2xx
deriving DecidableEq

/-- `NYCTaxiDataDownloader.get_file_name`: zero-padded month component. -/
def pad2 (m : Nat) : String :=
  if m < 10 then "0" ++ toString m else toString m

/-- `NYCTaxiDataDownloader.get_file_name`:
`yellow_tripdata_{year}-{month:02d}.parquet`. -/
def NYCTaxiDataDownloader.get_file_name (year month : Nat) : String :=
  "yellow_tripdata_" ++ toString year ++ "-" ++ pad2 month ++ ".parquet"

/-- `NYCTaxiDataDownloader.file_exists`: does the local file for this month
exist? -/
def NYCTaxiDataDownloader.file_exists (st : DlState) (name : String) : Bool :=
  (lookupFile st.files name).isSome

/-- `NYCTaxiDataDownloader.download_month`.  Returns the new world state and
the Python return value (`some true` / `some false` / `none` for the
fall-through path that returns `None`).  The fetch outcome argument is
consulted only when a network request is actually issued. -/
def NYCTaxiDataDownloader.download_month (st : DlState) (year month : Nat)
    (out : FetchOutcome) : DlState × Option Bool :=
  let name := NYCTaxiDataDownloader.get_file_name year month
  if NYCTaxiDataDownloader.file_exists st name then
    (st, some true)
  else
    match out with
    | .success content =>
        ({ files := setFile st.files name content, requests := st.requests + 1 },
         some true)
    | .httpError =>
        -- except handler: unlink the partial file if it exists (nothing was written)
        ({ files := removeFile st.files name, requests := st.requests + 1 },
         some false)
    | .midStreamFail part =>
        -- `part` bytes were written before the exception; the handler unlinks them
        ({ files := removeFile (setFile st.files name part) name,
           requests := st.requests + 1 },
         some false)
    | .odd2xx =>
        ({ files := st.files, requests := st.requests + 1 }, none)

/-- The download loop of `download_all_available`: call `download_month` for
each month, appending the month to the returned list regardless of its
outcome.  `outs` gives the network outcome for each month's request. -/
def fetchMonths (st : DlState) (year : Nat) (months : List Nat)
    (outs : Nat → FetchOutcome) : DlState × List Nat :=
  match months with
  | [] => (st, [])
  | m :: rest =>
    let r1 := NYCTaxiDataDownloader.download_month st year m (outs m)
    let r2 := fetchMonths r1.1 year rest outs
    (r2.1, m :: r2.2)

/-- `NYCTaxiDataDownloader.download_all_available`.  `curYear` / `curMonth`
model `datetime.now()`. -/
def NYCTaxiDataDownloader.download_all_available (st : DlState)
    (year curYear curMonth : Nat) (outs : Nat → FetchOutcome) :
    DlState × List Nat :=
  let current_month := if year ≠ curYear then 12 else curMonth
  let month_list := if current_month ≠ 1 then List.range' 1 current_month else [1]
  fetchMonths st year month_list outs

/-- The attempted-month list returned by the loop is exactly the input list,
independent of each month's outcome. -/
theorem fetchMonths_snd (year : Nat) (outs : Nat → FetchOutcome) :
    ∀ (months : List Nat) (st : DlState),
      (fetchMonths st year months outs).2 = months := by
  intro months
  induction months with
  | nil => intro st; rfl
  | cons m rest ih =>
      intro st
      simp [fetchMonths, ih]

/-- C7: `download_all_available` attempts months 1 .. current month when the
configured year is the current year, months 1 .. 12 otherwise, in ascending
order, and returns the full list of attempted months regardless of each
month's individual success or failure (the theorem quantifies over every
assignment of fetch outcomes). -/
theorem download_all_available_months (st : DlState)
    (year curYear curMonth : Nat) (outs : Nat → FetchOutcome) :
    (NYCTaxiDataDownloader.download_all_available st year curYear curMonth outs).2
      = List.range' 1 (if year = curYear then curMonth else 12) := by
  unfold NYCTaxiDataDownloader.download_all_available
  by_cases hy : year = curYear
  · simp only [hy, ite_true, ne_eq, not_true_eq_false, ite_false]
    by_cases hm : curMonth ≠ 1
    · simp [hm, fetchMonths_snd]
    · simp only [ne_eq, not_not] at hm
      simp [hm, fetchMonths_snd, List.range']
  · simp only [hy, ite_false, ne_eq, not_false_eq_true, ite_true]
    simp [fetchMonths_snd]

/-! ### File-store lemmas -/

/-- Deleting a file that does not exist leaves the store unchanged. -/
theorem removeFile_of_lookup_none (fs : FileStore) (n : String)
    (h : lookupFile fs n = none) : removeFile fs n = fs := by
  unfold lookupFile at h
  rw [Option.map_eq_none'] at h
  rw [List.find?_eq_none] at h
  unfold removeFile
  apply List.filter_eq_self.mpr
  intro p hp
  have := h p hp
  simp only [bne_iff_ne, ne_eq]
  intro hc
  exact this (by simp [hc])

/-- Deleting a file right after writing it is the same as deleting it
without the write. -/
theorem removeFile_setFile (fs : FileStore) (n : String) (c : List Nat) :
    removeFile (setFile fs n c) n = removeFile fs n := by
  unfold removeFile setFile removeFile
  simp [List.filter_append, List.filter_filter]

/-- After writing a file, looking it up yields the written content. -/
theorem lookupFile_setFile_self (fs : FileStore) (n : String) (c : List Nat) :
    lookupFile (setFile fs n c) n = some c := by
  unfold lookupFile setFile removeFile
  induction fs with
  | nil => simp
  | cons q rest ih =>
      rw [List.filter_cons]
      by_cases hq : q.1 = n
      · have hb : (q.1 != n) = false := by simp [hq]
        rw [hb]
        rw [if_neg (by simp)]
        exact ih
      · have hb : (q.1 != n) = true := by simp [hq]
        rw [hb]
        simp only [if_true, List.cons_append, List.find?_cons]
        have hb2 : (q.1 == n) = false := by simp [hq]
        rw [hb2]
        exact ih

/-- A `file_exists` check that fails means the lookup is `none`. -/
theorem lookup_none_of_not_exists (st : DlState) (name : String)
    (h : NYCTaxiDataDownloader.file_exists st name = false) :
    lookupFile st.files name = none := by
  unfold NYCTaxiDataDownloader.file_exists at h
  exact Option.not_isSome_iff_eq_none.mp (by simp [h])

/-- C5: if the streamed download fails for any network or I/O reason — an
error before the file is opened (`httpError`) or an error while streaming
chunks after `part` bytes were written (`midStreamFail`) — the partially
written local file is deleted before the call returns, the local files
are exactly as before the call, and the call reports failure. -/
theorem download_month_cleanup (st : DlState) (year month : Nat)
    (part : List Nat)
    (h : NYCTaxiDataDownloader.file_exists st
          (NYCTaxiDataDownloader.get_file_name year month) = false) :
    NYCTaxiDataDownloader.download_month st year month (.midStreamFail part)
      = ({ files := st.files, requests := st.requests + 1 }, some false) ∧
    NYCTaxiDataDownloader.download_month st year month .httpError
      = ({ files := st.files, requests := st.requests + 1 }, some false) := by
  have hnone := lookup_none_of_not_exists st _ h
  simp only [NYCTaxiDataDownloader.download_month, h, Bool.false_eq_true, if_false]
  constructor
  · rw [removeFile_setFile, removeFile_of_lookup_none _ _ hnone]
  · rw [removeFile_of_lookup_none _ _ hnone]

/-- Witness for `download_month_cleanup` at a concrete state. -/
theorem download_month_cleanup_witness :
    NYCTaxiDataDownloader.download_month ⟨[], 0⟩ 2025 1 (.midStreamFail [3])
      = ({ files := [], requests := 0 + 1 }, some false) ∧
    NYCTaxiDataDownloader.download_month ⟨[], 0⟩ 2025 1 .httpError
      = ({ files := [], requests := 0 + 1 }, some false) :=
  download_month_cleanup ⟨[], 0⟩ 2025 1 [3] rfl

/-- C6: when the local file for the month already exists, `download_month`
returns `True` and touches neither the filesystem nor the network (first
conjunct, for every state and fetch outcome).  Hence starting from a state
without the file, a successful fetch followed by a second invocation issues
exactly one network request in total, stores the fetched content, and the
second invocation returns `True` leaving the state — in particular the
local file — exactly as after the first. -/
theorem download_month_idempotent (st : DlState) (year month : Nat)
    (content : List Nat) (out2 : FetchOutcome)
    (h : NYCTaxiDataDownloader.file_exists st
          (NYCTaxiDataDownloader.get_file_name year month) = false) :
    (∀ (st2 : DlState) (o : FetchOutcome),
        NYCTaxiDataDownloader.file_exists st2
          (NYCTaxiDataDownloader.get_file_name year month) = true →
        NYCTaxiDataDownloader.download_month st2 year month o = (st2, some true)) ∧
    (NYCTaxiDataDownloader.download_month st year month (.success content)).2
      = some true ∧
    (NYCTaxiDataDownloader.download_month st year month (.success content)).1.requests
      = st.requests + 1 ∧
    lookupFile
      (NYCTaxiDataDownloader.download_month st year month (.success content)).1.files
      (NYCTaxiDataDownloader.get_file_name year month) = some content ∧
    NYCTaxiDataDownloader.download_month
      (NYCTaxiDataDownloader.download_month st year month (.success content)).1
      year month out2
      = ((NYCTaxiDataDownloader.download_month st year month (.success content)).1,
         some true) := by
  have hshort : ∀ (st2 : DlState) (o : FetchOutcome),
      NYCTaxiDataDownloader.file_exists st2
        (NYCTaxiDataDownloader.get_file_name year month) = true →
      NYCTaxiDataDownloader.download_month st2 year month o = (st2, some true) := by
    intro st2 o h2
    simp [NYCTaxiDataDownloader.download_month, h2]
  have hfirst : NYCTaxiDataDownloader.download_month st year month (.success content)
      = ({ files := setFile st.files (NYCTaxiDataDownloader.get_file_name year month)
                      content,
           requests := st.requests + 1 }, some true) := by
    simp [NYCTaxiDataDownloader.download_month, h]
  refine ⟨hshort, ?_, ?_, ?_, ?_⟩
  · rw [hfirst]
  · rw [hfirst]
  · rw [hfirst]
    exact lookupFile_setFile_self _ _ _
  · apply hshort
    rw [hfirst]
    unfold NYCTaxiDataDownloader.file_exists
    simp only
    rw [lookupFile_setFile_self]
    rfl

/-- Witness for `download_month_idempotent` at a concrete state. -/
theorem download_month_idempotent_witness :
    (∀ (st2 : DlState) (o : FetchOutcome),
        NYCTaxiDataDownloader.file_exists st2
          (NYCTaxiDataDownloader.get_file_name 2025 2) = true →
        NYCTaxiDataDownloader.download_month st2 2025 2 o = (st2, some true)) ∧
    (NYCTaxiDataDownloader.download_month ⟨[], 0⟩ 2025 2 (.success [7, 8])).2
      = some true ∧
    (NYCTaxiDataDownloader.download_month ⟨[], 0⟩ 2025 2 (.success [7, 8])).1.requests
      = 0 + 1 ∧
    lookupFile
      (NYCTaxiDataDownloader.download_month ⟨[], 0⟩ 2025 2 (.success [7, 8])).1.files
      (NYCTaxiDataDownloader.get_file_name 2025 2) = some [7, 8] ∧
    NYCTaxiDataDownloader.download_month
      (NYCTaxiDataDownloader.download_month ⟨[], 0⟩ 2025 2 (.success [7, 8])).1
      2025 2 .httpError
      = ((NYCTaxiDataDownloader.download_month ⟨[], 0⟩ 2025 2 (.success [7, 8])).1,
         some true) :=
  download_month_idempotent ⟨[], 0⟩ 2025 2 [7, 8] .httpError rfl

/-! ## Import engines

Both stores hold a trip table (`yellow_taxi_trips`) and an import ledger
(`import_log`) whose `file_name` column is a PRIMARY KEY.  A ledger entry is
a pair (file name, rows imported). -/

/-- Database state shared by the DuckDB and Postgres embeddings: the trip
table and the import ledger. -/
structure TripDB where
  trips : List RawRow
  ledger : List (String × Nat)
deriving DecidableEq

/-- Does the ledger hold an entry for this file name?  The code runs
`SELECT COUNT(*) FROM import_log WHERE file_name = ?` and compares with 0. -/
def ledgerHas (ledger : List (String × Nat)) (n : String) : Bool :=
  ledger.countP (fun e => e.1 == n) != 0

/-- A parquet file on disk, together with the faults the environment may
inject while the database processes it.  `rows = none` models a file whose
read raises (malformed parquet / schema mismatch); `insertFault` models the
bulk insert raising (constraint violation, connection loss); `logFault`
models the ledger insert raising for a reason other than its primary-key
constraint (which is modelled explicitly). -/
structure PFile where
  name : String
  rows : Option (List RawRow)
  insertFault : Bool
  logFault : Bool
deriving DecidableEq

/-! ### DuckDB importer (`src/import_to_duckdb.py`) -/

/-- `DuckDBImporter.is_file_imported`. -/
def DuckDBImporter.is_file_imported (st : TripDB) (n : String) : Bool :=
  ledgerHas st.ledger n

/-- Steps 2–5 of `DuckDBImporter.import_parquet`, run inside the
transaction: count rows, `INSERT INTO yellow_taxi_trips SELECT * FROM
read_parquet(...)` (note: the parquet rows are inserted as-is, with no
filtering), count again, insert the ledger entry.  `none` models any of
these steps raising. -/
def DuckDBImporter.importBody (st : TripDB) (f : PFile) : Option TripDB :=
  match f.rows with
  | none => none
  | some rs =>
    -- count_before = st.trips.length; after the insert the table is
    -- st.trips ++ rs, so count_after = (st.trips ++ rs).length and the
    -- logged row count is count_after - count_before
    if f.insertFault then none
    else if f.logFault || ledgerHas st.ledger f.name then none
    else some { trips := st.trips ++ rs,
                ledger := st.ledger ++
                  [(f.name, (st.trips ++ rs).length - st.trips.length)] }

/-- `DuckDBImporter.import_parquet`: skip (returning `True`) when the ledger
already has the file, otherwise run the transaction body; on success commit
and return `True`, on any error roll back to the pre-call state and return
`False`. -/
def DuckDBImporter.import_parquet (st : TripDB) (f : PFile) : TripDB × Bool :=
  if DuckDBImporter.is_file_imported st f.name then (st, true)
  else
    match DuckDBImporter.importBody st f with
    | some st2 => (st2, true)
    | none => (st, false)

/-- `DuckDBImporter.import_all_parquet`: fold `import_parquet` over the
(sorted) file list, counting the calls that returned `True`. -/
def DuckDBImporter.import_all_parquet (st : TripDB) (files : List PFile) :
    TripDB × Nat :=
  match files with
  | [] => (st, 0)
  | f :: rest =>
    let r1 := DuckDBImporter.import_parquet st f
    let r2 := DuckDBImporter.import_all_parquet r1.1 rest
    (r2.1, (if r1.2 then 1 else 0) + r2.2)

/-! ### Postgres importer (`src/import_to_postgres.py`) -/

/-- `clean_df`: read the parquet file, rename columns (identity at this
abstraction), and drop every row whose pickup or dropoff timestamp is
missing.  The timezone anchoring and the column projection that follow do
not change which rows are present. -/
def clean_df (rows : List RawRow) : List RawRow :=
  rows.filter (fun r => r.pickup.isSome && r.dropoff.isSome)

/-- `import_parquet_copy`: clean the file and `COPY` the rows into
`yellow_taxi_trips` in a single transaction that is committed before the
function returns.  Returns the number of rows imported (`some`), `some 0`
for an empty cleaned frame (no `COPY` issued), or `none` when any step
raised (the `except` clause; the `COPY` transaction is never committed, so
the table is unchanged).  The ledger is NOT touched here. -/
def import_parquet_copy (st : TripDB) (f : PFile) : TripDB × Option Nat :=
  match f.rows with
  | none => (st, none)
  | some raw =>
    -- df = clean_df raw
    if (clean_df raw).isEmpty then (st, some 0)
    else if f.insertFault then (st, none)
    else ({ st with trips := st.trips ++ clean_df raw },
          some (clean_df raw).length)

/-- `log_import`: insert one `ImportLog` row in its own session/transaction.
`file_name` is the table's primary key, so inserting a duplicate name
raises; `none` models that or any other insert failure. -/
def log_import (st : TripDB) (name : String) (n : Nat) (fault : Bool) :
    Option TripDB :=
  if fault || ledgerHas st.ledger name then none
  else some { st with ledger := st.ledger ++ [(name, n)] }

/-- One file's processing in `import_to_postgres.main`: run
`import_parquet_copy`; when it reports a row count, call `log_import` and
count the file as a success; an exception from `log_import` is caught by
the `except` in `main` and the file is excluded from the success count
(the committed `COPY` is not undone). -/
def pgProcessFile (st : TripDB) (f : PFile) : TripDB × Option Nat :=
  match import_parquet_copy st f with
  | (st1, some rows) =>
    match log_import st1 f.name rows f.logFault with
    | some st2 => (st2, some rows)
    | none => (st1, none)
  | (st1, none) => (st1, none)

/-- The worker loop of `import_to_postgres.main`: process every file,
accumulating (files succeeded, total rows).  The thread pool completes
tasks in arbitrary order; since the aggregation is a commutative count/sum,
the list order is used here. -/
def pgRun (st : TripDB) (files : List PFile) : TripDB × Nat × Nat :=
  match files with
  | [] => (st, 0, 0)
  | f :: rest =>
    let r1 := pgProcessFile st f
    let r2 := pgRun r1.1 rest
    match r1.2 with
    | some rows => (r2.1, r2.2.1 + 1, r2.2.2 + rows)
    | none => (r2.1, r2.2.1, r2.2.2)

/-- `import_to_postgres.main`: init the schema, glob the files (given here
as the sorted list), and return `{"files_imported": ok, "total_rows":
total}` — except when no parquet file is found, where it returns early with
Python `None`. -/
def pgMain (st : TripDB) (files : List PFile) : TripDB × Option (Nat × Nat) :=
  if files.isEmpty then (st, none)
  else
    let r := pgRun st files
    (r.1, some r.2)

/-! ### Pipeline service (`src/services.py`, `src/download_data.py`) -/

/-- `download_data.main`: build the downloader for the current year, run
`download_all_available`, print the summary — and end without a `return`
statement, so the call evaluates to Python `None` (the month list is
discarded). -/
def downloadDataMain (st : DlState) (curYear curMonth : Nat)
    (outs : Nat → FetchOutcome) : DlState × Option Nat :=
  let r := NYCTaxiDataDownloader.download_all_available st curYear curYear
      curMonth outs
  (r.1, none)

/-- `PipelineResponse.status` literal: `started | done | error`. -/
inductive PipelineStatus where
  | started
  | done
  | error
deriving DecidableEq

/-- `PipelineResponse` (`src/schemas.py`): all four count fields are
non-optional `int`s, so constructing it with `None` for any of them raises
a validation error. -/
structure PipelineResponse where
  status : PipelineStatus
  downloaded : Nat
  imported_files : Nat
  imported_rows : Nat
deriving DecidableEq

/-- `PipelineService.run_pipeline`: `init_db()` (schema creation, no effect
on the modelled state), then `download_data()`, then
`import_data_to_postgres()`, then construct the `PipelineResponse`.
`none` models the call raising: either a `TypeError` from subscripting a
`None` import result, or a validation error from passing `downloaded=None`
to the `int` field of `PipelineResponse`. -/
def run_pipeline (dlSt : DlState) (pgSt : TripDB) (files : List PFile)
    (curYear curMonth : Nat) (outs : Nat → FetchOutcome) :
    Option PipelineResponse :=
  let dl := downloadDataMain dlSt curYear curMonth outs
  let imp := pgMain pgSt files
  match imp.2, dl.2 with
  | some stats, some d =>
      some { status := .done, downloaded := d,
             imported_files := stats.1, imported_rows := stats.2 }
  | _, _ => none

/-! ### Import-engine lemmas -/

/-- A failed ledger check means the count is zero. -/
theorem ledgerHas_false_count (l : List (String × Nat)) (n : String)
    (h : ledgerHas l n = false) : l.countP (fun e => e.1 == n) = 0 := by
  unfold ledgerHas at h
  simpa using h

/-- A `DuckDBImporter.import_parquet` call that returns `False` rolled the
transaction back: the database is exactly the pre-call state. -/
theorem DuckDBImporter.import_parquet_false_frame (st : TripDB) (f : PFile)
    (h : (DuckDBImporter.import_parquet st f).2 = false) :
    DuckDBImporter.import_parquet st f = (st, false) := by
  unfold DuckDBImporter.import_parquet at h ⊢
  by_cases hi : DuckDBImporter.is_file_imported st f.name = true
  · rw [if_pos hi] at h
    exact absurd h (by simp)
  · rw [if_neg hi] at h ⊢
    cases hb : DuckDBImporter.importBody st f with
    | none => rfl
    | some st2 =>
        rw [hb] at h
        exact absurd h (by simp)

/-- `import_parquet_copy` never touches the ledger. -/
theorem import_parquet_copy_ledger (st : TripDB) (f : PFile) :
    (import_parquet_copy st f).1.ledger = st.ledger := by
  unfold import_parquet_copy
  cases hr : f.rows with
  | none => rfl
  | some raw =>
      dsimp only
      by_cases he : (clean_df raw).isEmpty = true
      · rw [if_pos he]
      · rw [if_neg he]
        by_cases hf : f.insertFault = true
        · rw [if_pos hf]
        · rw [if_neg hf]

/-- An `import_parquet_copy` call that reports an error leaves the database
exactly as before (its `COPY` transaction is never committed). -/
theorem import_parquet_copy_none_frame (st : TripDB) (f : PFile)
    (h : (import_parquet_copy st f).2 = none) :
    import_parquet_copy st f = (st, none) := by
  unfold import_parquet_copy at h ⊢
  cases hr : f.rows with
  | none => rfl
  | some raw =>
      rw [hr] at h
      dsimp only at h ⊢
      by_cases he : (clean_df raw).isEmpty = true
      · rw [if_pos he] at h
        exact absurd h (by simp)
      · rw [if_neg he] at h ⊢
        by_cases hf : f.insertFault = true
        · rw [if_pos hf]
        · rw [if_neg hf] at h
          exact absurd h (by simp)

/-- A file already present in the ledger is skipped: state unchanged,
`True` returned. -/
theorem DuckDBImporter.import_parquet_skip (st : TripDB) (f : PFile)
    (h : DuckDBImporter.is_file_imported st f.name = true) :
    DuckDBImporter.import_parquet st f = (st, true) := by
  unfold DuckDBImporter.import_parquet
  rw [h]
  simp

/-- Iterated invocation of `DuckDBImporter.import_parquet` on the same
file, keeping only the database state. -/
def repeatImport (f : PFile) (st : TripDB) : Nat → TripDB
  | 0 => st
  | k + 1 => repeatImport f (DuckDBImporter.import_parquet st f).1 k

/-- Concrete valid trip row. -/
def sampleRow : RawRow := { pickup := some 1, dropoff := some 2, payload := 0 }

/-- Concrete one-row parquet file processed without injected faults. -/
def sampleFile : PFile :=
  { name := "yellow_tripdata_2025-01.parquet", rows := some [sampleRow],
    insertFault := false, logFault := false }

/-- Concrete file whose read raises (malformed parquet). -/
def readFailFile : PFile :=
  { name := "yellow_tripdata_2025-04.parquet", rows := none,
    insertFault := false, logFault := false }

/-- C1 counterexample: the Postgres import engine has no ledger lookup.
Processing the same one-row file twice (as `import_to_postgres.main` does
for each file: `import_parquet_copy` then `log_import`) leaves the file's
row in the trip table TWICE, and the repeat call reports failure (the
ledger's primary key rejects the duplicate entry) instead of returning
success immediately. -/
theorem pg_reimport_duplicates_rows :
    (pgProcessFile (pgProcessFile ⟨[], []⟩ sampleFile).1 sampleFile).1.trips
      = [sampleRow, sampleRow] ∧
    (pgProcessFile (pgProcessFile ⟨[], []⟩ sampleFile).1 sampleFile).2 = none ∧
    (pgProcessFile ⟨[], []⟩ sampleFile).1.trips = [sampleRow] :=
  ⟨rfl, rfl, rfl⟩

/-- C1 (amended to the DuckDB engine): a first successful
`DuckDBImporter.import_parquet` call on a file not yet in the ledger
appends exactly the file's rows to the trip table (each row's multiplicity
grows by exactly its multiplicity in the file) and exactly one ledger
entry for the file name; every repeat call finds the ledger entry,
returns `True` immediately and changes nothing, no matter how many times
it is repeated. -/
theorem duckdb_exactly_once (st : TripDB) (f : PFile) (rs : List RawRow)
    (h1 : DuckDBImporter.is_file_imported st f.name = false)
    (h2 : f.rows = some rs) (h3 : f.insertFault = false)
    (h4 : f.logFault = false) :
    (DuckDBImporter.import_parquet st f).2 = true ∧
    (DuckDBImporter.import_parquet st f).1.trips = st.trips ++ rs ∧
    (∀ r : RawRow,
      ((DuckDBImporter.import_parquet st f).1.trips.count r)
        = st.trips.count r + rs.count r) ∧
    ((DuckDBImporter.import_parquet st f).1.ledger.countP
        (fun e => e.1 == f.name)) = 1 ∧
    DuckDBImporter.import_parquet (DuckDBImporter.import_parquet st f).1 f
      = ((DuckDBImporter.import_parquet st f).1, true) ∧
    (∀ k : Nat,
      repeatImport f (DuckDBImporter.import_parquet st f).1 k
        = (DuckDBImporter.import_parquet st f).1) := by
  have hled : ledgerHas st.ledger f.name = false := h1
  have hcount := ledgerHas_false_count st.ledger f.name hled
  have hbody : DuckDBImporter.importBody st f
      = some { trips := st.trips ++ rs,
               ledger := st.ledger ++
                 [(f.name, (st.trips ++ rs).length - st.trips.length)] } := by
    unfold DuckDBImporter.importBody
    rw [h2, h3, h4]
    simp [hled]
  have hres : DuckDBImporter.import_parquet st f
      = ({ trips := st.trips ++ rs,
           ledger := st.ledger ++
             [(f.name, (st.trips ++ rs).length - st.trips.length)] }, true) := by
    unfold DuckDBImporter.import_parquet
    rw [h1]
    simp only [Bool.false_eq_true, if_false, hbody]
  have himported2 : DuckDBImporter.is_file_imported
      (DuckDBImporter.import_parquet st f).1 f.name = true := by
    rw [hres]
    unfold DuckDBImporter.is_file_imported ledgerHas
    simp [List.countP_append, hcount, List.countP_cons]
  have hskip : DuckDBImporter.import_parquet (DuckDBImporter.import_parquet st f).1 f
      = ((DuckDBImporter.import_parquet st f).1, true) :=
    DuckDBImporter.import_parquet_skip _ f himported2
  refine ⟨?_, ?_, ?_, ?_, hskip, ?_⟩
  · rw [hres]
  · rw [hres]
  · intro r
    rw [hres]
    simp [List.count_append]
  · rw [hres]
    simp [List.countP_append, hcount, List.countP_cons]
  · intro k
    induction k with
    | zero => rfl
    | succ n ih =>
        show repeatImport f
          (DuckDBImporter.import_parquet (DuckDBImporter.import_parquet st f).1 f).1 n
          = (DuckDBImporter.import_parquet st f).1
        rw [hskip]
        exact ih

/-- Witness for `duckdb_exactly_once` on a concrete database and file. -/
theorem duckdb_exactly_once_witness :
    (DuckDBImporter.import_parquet ⟨[], []⟩ sampleFile).2 = true ∧
    (DuckDBImporter.import_parquet ⟨[], []⟩ sampleFile).1.trips
      = [] ++ [sampleRow] ∧
    (∀ r : RawRow,
      ((DuckDBImporter.import_parquet ⟨[], []⟩ sampleFile).1.trips.count r)
        = ([] : List RawRow).count r + [sampleRow].count r) ∧
    ((DuckDBImporter.import_parquet ⟨[], []⟩ sampleFile).1.ledger.countP
        (fun e => e.1 == sampleFile.name)) = 1 ∧
    DuckDBImporter.import_parquet
      (DuckDBImporter.import_parquet ⟨[], []⟩ sampleFile).1 sampleFile
      = ((DuckDBImporter.import_parquet ⟨[], []⟩ sampleFile).1, true) ∧
    (∀ k : Nat,
      repeatImport sampleFile (DuckDBImporter.import_parquet ⟨[], []⟩ sampleFile).1 k
        = (DuckDBImporter.import_parquet ⟨[], []⟩ sampleFile).1) :=
  duckdb_exactly_once ⟨[], []⟩ sampleFile [sampleRow] rfl rfl rfl rfl

/-- `import_parquet_copy` either leaves the trip table unchanged or appends
exactly the cleaned rows of the file. -/
theorem import_parquet_copy_trips (st : TripDB) (g : PFile) :
    (import_parquet_copy st g).1.trips = st.trips ∨
    (import_parquet_copy st g).1.trips = st.trips ++ clean_df (g.rows.getD []) := by
  unfold import_parquet_copy
  cases hr : g.rows with
  | none => exact Or.inl rfl
  | some raw =>
      dsimp only
      by_cases he : (clean_df raw).isEmpty = true
      · rw [if_pos he]
        exact Or.inl rfl
      · rw [if_neg he]
        by_cases hi : g.insertFault = true
        · rw [if_pos hi]
          exact Or.inl rfl
        · rw [if_neg hi]
          exact Or.inr rfl

/-- A failed `pgProcessFile` call never leaves a ledger entry. -/
theorem pgProcessFile_ledger_of_none (st : TripDB) (g : PFile)
    (h : (pgProcessFile st g).2 = none) :
    (pgProcessFile st g).1.ledger = st.ledger := by
  unfold pgProcessFile at h ⊢
  rcases hc : import_parquet_copy st g with ⟨st1, res⟩
  have hled : st1.ledger = st.ledger := by
    have h2 := import_parquet_copy_ledger st g
    rw [hc] at h2
    exact h2
  rw [hc] at h
  cases res with
  | none => exact hled
  | some rows =>
      dsimp only at h ⊢
      cases hl : log_import st1 g.name rows g.logFault with
      | none => exact hled
      | some st2 =>
          rw [hl] at h
          exact absurd h (by simp)

/-- A failed `pgProcessFile` call leaves the trip table either unchanged or
holding exactly the file's committed cleaned rows. -/
theorem pgProcessFile_trips_of_none (st : TripDB) (g : PFile)
    (h : (pgProcessFile st g).2 = none) :
    (pgProcessFile st g).1.trips = st.trips ∨
    (pgProcessFile st g).1.trips = st.trips ++ clean_df (g.rows.getD []) := by
  unfold pgProcessFile at h ⊢
  rcases hc : import_parquet_copy st g with ⟨st1, res⟩
  have htr := import_parquet_copy_trips st g
  rw [hc] at htr h
  cases res with
  | none => exact htr
  | some rows =>
      dsimp only at h htr ⊢
      cases hl : log_import st1 g.name rows g.logFault with
      | none => exact htr
      | some st2 =>
          rw [hl] at h
          exact absurd h (by simp)

/-- Concrete one-row file whose ledger insert raises (e.g. the ledger
session's connection drops after the `COPY` already committed). -/
def logFaultFile : PFile :=
  { name := "yellow_tripdata_2025-02.parquet", rows := some [sampleRow],
    insertFault := false, logFault := true }

/-- C2 counterexample: in the Postgres path the `COPY` commits in its own
transaction before `log_import` runs in another; when the ledger insert
then fails, the call reports failure yet the trip rows survive — the trip
table does not hold the rows it held before the call. -/
theorem pg_ledger_failure_keeps_rows :
    (pgProcessFile ⟨[], []⟩ logFaultFile).2 = none ∧
    (pgProcessFile ⟨[], []⟩ logFaultFile).1.trips = [sampleRow] ∧
    (pgProcessFile ⟨[], []⟩ logFaultFile).1.trips ≠ ([] : List RawRow) :=
  ⟨rfl, rfl, by decide⟩

/-- C2 (amended): the DuckDB engine is fully atomic — any error during
read, bulk insert or ledger insert rolls the transaction back, leaving the
database exactly as before the call and reporting failure.  In the
Postgres engine a failed call never leaves a ledger entry, and a
transform/`COPY` error leaves the trip table untouched, but the `COPY`
commits separately from `log_import`: a failed call may leave the file's
cleaned rows committed in the trip table. -/
theorem import_failure_rollback (stD : TripDB) (f : PFile)
    (stP : TripDB) (g : PFile)
    (hf : (DuckDBImporter.import_parquet stD f).2 = false)
    (hg : (pgProcessFile stP g).2 = none) :
    (DuckDBImporter.import_parquet stD f).1 = stD ∧
    (pgProcessFile stP g).1.ledger = stP.ledger ∧
    ((pgProcessFile stP g).1.trips = stP.trips ∨
      (pgProcessFile stP g).1.trips = stP.trips ++ clean_df (g.rows.getD [])) :=
  ⟨by rw [DuckDBImporter.import_parquet_false_frame stD f hf],
   pgProcessFile_ledger_of_none stP g hg,
   pgProcessFile_trips_of_none stP g hg⟩

/-- Witness for `import_failure_rollback`: a file whose parquet read raises
in both engines. -/
theorem import_failure_rollback_witness :
    (DuckDBImporter.import_parquet ⟨[], []⟩ readFailFile).1 = (⟨[], []⟩ : TripDB) ∧
    (pgProcessFile ⟨[], []⟩ readFailFile).1.ledger
      = (⟨[], []⟩ : TripDB).ledger ∧
    ((pgProcessFile ⟨[], []⟩ readFailFile).1.trips = (⟨[], []⟩ : TripDB).trips ∨
      (pgProcessFile ⟨[], []⟩ readFailFile).1.trips
        = (⟨[], []⟩ : TripDB).trips ++ clean_df (readFailFile.rows.getD [])) :=
  import_failure_rollback ⟨[], []⟩ readFailFile ⟨[], []⟩ readFailFile rfl rfl

/-- Concrete row with a NULL pickup timestamp. -/
def nullTsRow : RawRow := { pickup := none, dropoff := some 3, payload := 1 }

/-- Concrete parquet file containing only the NULL-timestamp row, processed
without injected faults. -/
def nullTsFile : PFile :=
  { name := "yellow_tripdata_2025-03.parquet", rows := some [nullTsRow],
    insertFault := false, logFault := false }

/-- C4 counterexample: the DuckDB import path
(`INSERT INTO yellow_taxi_trips SELECT * FROM read_parquet(...)`) applies
no timestamp filter — importing a file whose only row has a NULL pickup
timestamp succeeds and persists that row in the trip table. -/
theorem duckdb_inserts_null_timestamp_row :
    (DuckDBImporter.import_parquet ⟨[], []⟩ nullTsFile).2 = true ∧
    (DuckDBImporter.import_parquet ⟨[], []⟩ nullTsFile).1.trips = [nullTsRow] ∧
    nullTsRow.pickup = none :=
  ⟨rfl, rfl, rfl⟩

/-- C4 (amended): the transform (`clean_df`) drops every row whose pickup
or dropoff timestamp is missing, so the Postgres import path only ever
adds rows with both timestamps present to the trip table; the DuckDB path
inserts the parquet rows unfiltered and can persist rows violating the
invariant. -/
theorem pg_timestamps_invariant (st : TripDB) (f : PFile) (r : RawRow)
    (h : r ∈ (pgProcessFile st f).1.trips) :
    (∀ (raw : List RawRow) (q : RawRow),
        q ∈ clean_df raw → q.pickup.isSome ∧ q.dropoff.isSome) ∧
    (r ∈ st.trips ∨ (r.pickup.isSome ∧ r.dropoff.isSome)) := by
  have hclean : ∀ (raw : List RawRow) (q : RawRow),
      q ∈ clean_df raw → q.pickup.isSome ∧ q.dropoff.isSome := by
    intro raw q hq
    unfold clean_df at hq
    have := List.of_mem_filter hq
    constructor
    · exact Bool.and_elim_left this
    · exact Bool.and_elim_right this
  refine ⟨hclean, ?_⟩
  have htrips : (pgProcessFile st f).1.trips = st.trips ∨
      (pgProcessFile st f).1.trips = st.trips ++ clean_df (f.rows.getD []) := by
    unfold pgProcessFile
    rcases hc : import_parquet_copy st f with ⟨st1, res⟩
    have htr := import_parquet_copy_trips st f
    rw [hc] at htr
    cases res with
    | none => exact htr
    | some rows =>
        dsimp only at htr ⊢
        cases hl : log_import st1 f.name rows f.logFault with
        | none => exact htr
        | some st2 =>
            have hst2 : st2.trips = st1.trips := by
              unfold log_import at hl
              split at hl
              · exact absurd hl (by simp)
              · rw [← Option.some.inj hl]
            dsimp only
            rw [hst2]
            exact htr
  rcases htrips with heq | heq
  · rw [heq] at h
    exact Or.inl h
  · rw [heq] at h
    rcases List.mem_append.mp h with hm | hm
    · exact Or.inl hm
    · exact Or.inr (hclean _ _ hm)

/-- Witness for `pg_timestamps_invariant` on a concrete import. -/
theorem pg_timestamps_invariant_witness :
    (∀ (raw : List RawRow) (q : RawRow),
        q ∈ clean_df raw → q.pickup.isSome ∧ q.dropoff.isSome) ∧
    (sampleRow ∈ ([] : List RawRow) ∨
      (sampleRow.pickup.isSome ∧ sampleRow.dropoff.isSome)) :=
  pg_timestamps_invariant ⟨[], []⟩ sampleFile sampleRow (by decide)

/-- C9: a file whose transformed result is empty (empty file, or every row
dropped by the timestamp filter) is a successful zero-row import in the
Postgres path: `import_parquet_copy` returns 0 rather than an error, no
trip rows are inserted, a ledger entry with row count 0 is written, and
the file counts as one success (with zero rows) in the aggregate of
`import_to_postgres.main`. -/
theorem pg_empty_import_success (st : TripDB) (f : PFile) (raw : List RawRow)
    (h1 : f.rows = some raw) (h2 : clean_df raw = [])
    (h3 : f.logFault = false) (h4 : ledgerHas st.ledger f.name = false) :
    import_parquet_copy st f = (st, some 0) ∧
    pgProcessFile st f
      = ({ trips := st.trips, ledger := st.ledger ++ [(f.name, 0)] }, some 0) ∧
    pgMain st [f]
      = ({ trips := st.trips, ledger := st.ledger ++ [(f.name, 0)] },
         some (1, 0)) := by
  have hcopy : import_parquet_copy st f = (st, some 0) := by
    unfold import_parquet_copy
    rw [h1]
    dsimp only
    rw [if_pos (by rw [h2]; rfl)]
  have hlog : log_import st f.name 0 f.logFault
      = some { trips := st.trips, ledger := st.ledger ++ [(f.name, 0)] } := by
    unfold log_import
    rw [h3, h4]
    rfl
  have hproc : pgProcessFile st f
      = ({ trips := st.trips, ledger := st.ledger ++ [(f.name, 0)] }, some 0) := by
    unfold pgProcessFile
    rw [hcopy]
    dsimp only
    rw [hlog]
  refine ⟨hcopy, hproc, ?_⟩
  unfold pgMain
  rw [if_neg (by simp)]
  unfold pgRun
  rw [hproc]
  rfl

/-- Witness for `pg_empty_import_success`: a file whose only row is dropped
by the timestamp filter. -/
theorem pg_empty_import_success_witness :
    import_parquet_copy ⟨[], []⟩ nullTsFile = (⟨[], []⟩, some 0) ∧
    pgProcessFile ⟨[], []⟩ nullTsFile
      = ({ trips := [], ledger := [] ++ [(nullTsFile.name, 0)] }, some 0) ∧
    pgMain ⟨[], []⟩ [nullTsFile]
      = ({ trips := [], ledger := [] ++ [(nullTsFile.name, 0)] }, some (1, 0)) :=
  pg_empty_import_success ⟨[], []⟩ nullTsFile [nullTsRow] rfl rfl rfl rfl

/-- C10: a file whose name is already in the ledger is skipped by
`DuckDBImporter.import_parquet` — it returns `True` and leaves both the
trip table and the ledger unchanged — and `import_all_parquet`
nevertheless counts it among the imported files it returns. -/
theorem duckdb_skip_counted (st : TripDB) (f : PFile) (ys : List PFile)
    (h : DuckDBImporter.is_file_imported st f.name = true) :
    DuckDBImporter.import_parquet st f = (st, true) ∧
    DuckDBImporter.import_all_parquet st (f :: ys)
      = ((DuckDBImporter.import_all_parquet st ys).1,
         1 + (DuckDBImporter.import_all_parquet st ys).2) := by
  have hskip := DuckDBImporter.import_parquet_skip st f h
  refine ⟨hskip, ?_⟩
  show (let r1 := DuckDBImporter.import_parquet st f
        let r2 := DuckDBImporter.import_all_parquet r1.1 ys
        (r2.1, (if r1.2 then 1 else 0) + r2.2))
      = ((DuckDBImporter.import_all_parquet st ys).1,
         1 + (DuckDBImporter.import_all_parquet st ys).2)
  rw [hskip]
  simp

/-- Witness for `duckdb_skip_counted`: the ledger already holds the file's
name. -/
theorem duckdb_skip_counted_witness :
    DuckDBImporter.import_parquet
        ⟨[], [("yellow_tripdata_2025-01.parquet", 5)]⟩ sampleFile
      = (⟨[], [("yellow_tripdata_2025-01.parquet", 5)]⟩, true) ∧
    DuckDBImporter.import_all_parquet
        ⟨[], [("yellow_tripdata_2025-01.parquet", 5)]⟩ [sampleFile]
      = ((DuckDBImporter.import_all_parquet
            ⟨[], [("yellow_tripdata_2025-01.parquet", 5)]⟩ []).1,
         1 + (DuckDBImporter.import_all_parquet
            ⟨[], [("yellow_tripdata_2025-01.parquet", 5)]⟩ []).2) :=
  duckdb_skip_counted ⟨[], [("yellow_tripdata_2025-01.parquet", 5)]⟩
    sampleFile [] (by decide)

/-- A file whose parquet read raises is a no-op failure for the Postgres
per-file processing. -/
theorem pgProcessFile_rows_none (st : TripDB) (g : PFile)
    (h : g.rows = none) : pgProcessFile st g = (st, none) := by
  unfold pgProcessFile import_parquet_copy
  rw [h]

/-- Inserting a file that fails to read anywhere in the batch changes
neither the final database state nor the aggregate counts, and every other
file is still processed. -/
theorem pgRun_skips_failing (bad : PFile) (hbad : bad.rows = none) :
    ∀ (xs : List PFile) (st : TripDB) (ys : List PFile),
      pgRun st (xs ++ bad :: ys) = pgRun st (xs ++ ys) := by
  intro xs
  induction xs with
  | nil =>
      intro st ys
      have h1 := pgProcessFile_rows_none st bad hbad
      show (let r1 := pgProcessFile st bad
            let r2 := pgRun r1.1 ys
            match r1.2 with
            | some rows => (r2.1, r2.2.1 + 1, r2.2.2 + rows)
            | none => (r2.1, r2.2.1, r2.2.2)) = pgRun st ys
      rw [h1]
  | cons x xs ih =>
      intro st ys
      show (let r1 := pgProcessFile st x
            let r2 := pgRun r1.1 (xs ++ bad :: ys)
            match r1.2 with
            | some rows => (r2.1, r2.2.1 + 1, r2.2.2 + rows)
            | none => (r2.1, r2.2.1, r2.2.2))
          = (let r1 := pgProcessFile st x
             let r2 := pgRun r1.1 (xs ++ ys)
             match r1.2 with
             | some rows => (r2.1, r2.2.1 + 1, r2.2.2 + rows)
             | none => (r2.1, r2.2.1, r2.2.2))
      dsimp only
      cases hx : (pgProcessFile st x).2 with
      | none =>
          dsimp only
          rw [ih]
      | some rows =>
          dsimp only
          rw [ih]

/-- A failing file at the head of a DuckDB batch is excluded from the
count while the rest of the batch is processed unchanged. -/
theorem duckdb_import_all_skips_failing (st : TripDB) (bad : PFile)
    (ds : List PFile)
    (h : (DuckDBImporter.import_parquet st bad).2 = false) :
    DuckDBImporter.import_all_parquet st (bad :: ds)
      = DuckDBImporter.import_all_parquet st ds := by
  have hframe := DuckDBImporter.import_parquet_false_frame st bad h
  show (let r1 := DuckDBImporter.import_parquet st bad
        let r2 := DuckDBImporter.import_all_parquet r1.1 ds
        (r2.1, (if r1.2 then 1 else 0) + r2.2))
      = DuckDBImporter.import_all_parquet st ds
  rw [hframe]
  simp

/-- C8: one file's failure never aborts the batch.  A file whose read
raises is reported as a failed no-op, the surrounding files are processed
exactly as if it were absent, the failure is excluded from the aggregate
counts, and `import_to_postgres.main` still returns the aggregate (success
count, total rows); likewise a failing file in a DuckDB batch is excluded
from the returned count while the remaining files are processed. -/
theorem batch_failure_tolerated (stP : TripDB) (xs ys : List PFile)
    (bad : PFile) (hbad : bad.rows = none)
    (stD : TripDB) (db : PFile) (ds : List PFile)
    (hdb : (DuckDBImporter.import_parquet stD db).2 = false) :
    pgProcessFile stP bad = (stP, none) ∧
    pgRun stP (xs ++ bad :: ys) = pgRun stP (xs ++ ys) ∧
    pgMain stP (xs ++ bad :: ys)
      = ((pgRun stP (xs ++ ys)).1, some (pgRun stP (xs ++ ys)).2) ∧
    DuckDBImporter.import_all_parquet stD (db :: ds)
      = DuckDBImporter.import_all_parquet stD ds := by
  have h1 := pgProcessFile_rows_none stP bad hbad
  have h2 := pgRun_skips_failing bad hbad xs stP ys
  refine ⟨h1, h2, ?_, duckdb_import_all_skips_failing stD db ds hdb⟩
  unfold pgMain
  rw [if_neg (by simp), h2]

/-- Witness for `batch_failure_tolerated`: a batch of one unreadable file
followed by one good file. -/
theorem batch_failure_tolerated_witness :
    pgProcessFile ⟨[], []⟩ readFailFile = (⟨[], []⟩, none) ∧
    pgRun ⟨[], []⟩ ([] ++ readFailFile :: [sampleFile])
      = pgRun ⟨[], []⟩ ([] ++ [sampleFile]) ∧
    pgMain ⟨[], []⟩ ([] ++ readFailFile :: [sampleFile])
      = ((pgRun ⟨[], []⟩ ([] ++ [sampleFile])).1,
         some (pgRun ⟨[], []⟩ ([] ++ [sampleFile])).2) ∧
    DuckDBImporter.import_all_parquet ⟨[], []⟩ (readFailFile :: [])
      = DuckDBImporter.import_all_parquet ⟨[], []⟩ [] :=
  batch_failure_tolerated ⟨[], []⟩ [] [sampleFile] readFailFile rfl
    ⟨[], []⟩ readFailFile [] rfl

/-- C3: `run_pipeline` always raises instead of returning a
`PipelineResponse`: `download_data.main` ends without a `return`
statement, so the `downloaded` value passed to the response is Python
`None`, which the `int` field rejects (and with no files the import result
is `None`, whose subscripting raises first).  The theorem quantifies over
every initial state, file list and network behaviour. -/
theorem run_pipeline_always_raises (dlSt : DlState) (pgSt : TripDB)
    (files : List PFile) (curYear curMonth : Nat)
    (outs : Nat → FetchOutcome) :
    run_pipeline dlSt pgSt files curYear curMonth outs = none := by
  unfold run_pipeline downloadDataMain
  dsimp only
  cases h : (pgMain pgSt files).2 with
  | none => rfl
  | some stats => rfl
